import Mathlib

/-!
Verification development for the promptly front-end chat components.

The embedding below translates the two dashboard components, LLMChat and
MultimodalRAG, together with the shared axios response interceptor, into
plain Lean definitions.  React state hooks become fields of an explicit
state record; each event handler becomes a state-transition function.  A
handler that issues a network request additionally returns the request
payload it would send (`Option` of the payload type, `none` when no call
is made), so that the number and content of outgoing calls is visible in
the model.  Asynchronous resolution of a request is modelled by separate
transition functions (`chatResolveSuccess`, `chatResolveFailure`, ...)
applied to the state current at resolution time, mirroring the functional
`setMessages (prev => ...)` updates in the source.

Fresh message identifiers (`makeId` in the source, an opaque random
token) are supplied as explicit `String` arguments to the transitions;
no claim depends on their generation.
-/

set_option autoImplicit false

/-- Whitespace test for the JavaScript string primitives modelled below
(the source's inputs only ever involve ordinary whitespace). -/
def isWsChar (c : Char) : Bool :=
  c = ' ' || c = '\t' || c = '\n' || c = '\r'

/-- JavaScript String.prototype.trim, as a kernel-computable function:
strip leading and trailing whitespace. -/
def jsTrim (s : String) : String :=
  String.mk (((s.data.dropWhile isWsChar).reverse.dropWhile isWsChar).reverse)

/-- JavaScript String.prototype.toLowerCase, as a kernel-computable
function. -/
def jsToLower (s : String) : String :=
  String.mk (s.data.map Char.toLower)

/-- JavaScript String.prototype.endsWith, as a kernel-computable
function. -/
def jsEndsWith (s pat : String) : Bool :=
  List.isSuffixOf pat.data s.data

/-- Role of a chat message in the LLMChat component
(type ChatRole = system | user | assistant). -/
inductive ChatRole where
  | system
  | user
  | assistant
deriving DecidableEq, Repr

/-- A transcript entry of the LLMChat component:
type ChatMessage = \x7b id, role, content \x7d. -/
structure ChatMessage where
  id : String
  role : ChatRole
  content : String
deriving DecidableEq, Repr

/-- A role/content pair as placed in the outgoing chat request body. -/
structure ReqMessage where
  role : ChatRole
  content : String
deriving DecidableEq, Repr

/-- Body of POST /api/llm/chat as built in LLMChat.send:
model is omitted (None) when the selected model string is empty
(model \x7c\x7c undefined); messages is the ordered list sent.
The constant options object of the source carries no information and is
not modelled. -/
structure ChatRequest where
  model : Option String
  messages : List ReqMessage
deriving DecidableEq, Repr

/-- React state of the LLMChat component: one field per useState hook. -/
structure ChatState where
  availableModels : List String
  model : String
  systemPrompt : String
  messages : List ChatMessage
  draft : String
  loading : Bool
  error : String
deriving DecidableEq, Repr

/-- The requestMessages memo of LLMChat: the trimmed system prompt first
when non-empty, then every transcript message as a role/content pair. -/
def requestMessages (s : ChatState) : List ReqMessage :=
  (if jsTrim s.systemPrompt = "" then []
   else [{ role := ChatRole.system, content := jsTrim s.systemPrompt }])
    ++ s.messages.map (fun m => { role := m.role, content := m.content })

/-- Guard at the top of LLMChat.send: the call returns immediately when
the trimmed draft is empty or a request is already pending
(if (!text \x7c\x7c loading) return). -/
def chatSendAccepts (s : ChatState) : Bool :=
  !(jsTrim s.draft = "") && !s.loading

/-- Synchronous state change of an accepted LLMChat.send before the
request resolves: clear the error, enter pending state, append the user
message built from the trimmed draft, clear the draft. -/
def chatSendStart (s : ChatState) (uid : String) : ChatState :=
  { s with
    error := ""
    loading := true
    messages := s.messages ++ [{ id := uid, role := ChatRole.user, content := jsTrim s.draft }]
    draft := "" }

/-- The request body of an accepted LLMChat.send.  The messages array is
the requestMessages value captured from the render in which send ran —
i.e. computed from the transcript BEFORE the user message was appended —
followed by the new user message. -/
def chatRequest (s : ChatState) : ChatRequest :=
  { model := if s.model = "" then none else some s.model
    messages := requestMessages s ++ [{ role := ChatRole.user, content := jsTrim s.draft }] }

/-- One invocation of LLMChat.send: either a no-op issuing no request, or
the accepted transition together with the single request it issues. -/
def chatSendStep (s : ChatState) (uid : String) : ChatState × Option ChatRequest :=
  if chatSendAccepts s then (chatSendStart s uid, some (chatRequest s))
  else (s, none)

/-- Content stored for the assistant message in the LLMChat success
branch: const content = (res?.data?.content ?? "").toString();
content \x7c\x7c "(empty response)".  The content field of the response is
modelled as Option String (absent = none). -/
def chatResponseContent (content : Option String) : String :=
  let c := content.getD ""
  if c = "" then "(empty response)" else c

/-- Resolution of a successful chat request, applied to the state current
at resolution time: append the assistant message (functional setMessages
update) and leave pending state (finally block). -/
def chatResolveSuccess (s : ChatState) (uid : String) (content : Option String) : ChatState :=
  { s with
    messages := s.messages ++
      [{ id := uid, role := ChatRole.assistant, content := chatResponseContent content }]
    loading := false }

/-- Fields of a non-string rejected payload's details object, as probed
by e?.details?.error and e?.details?.detail.  A field that is absent is
none. -/
structure ErrDetails where
  error : Option String
  detail : Option String
deriving DecidableEq, Repr

/-- Fields of a non-string rejected payload, as probed by e?.error,
e?.details and e?.message. -/
structure ErrFields where
  error : Option String
  details : Option ErrDetails
  message : Option String
deriving DecidableEq, Repr

/-- A rejected payload reaching the catch block: either a string or an
object with the probed fields. -/
inductive ErrPayload where
  | str (s : String)
  | obj (f : ErrFields)
deriving DecidableEq, Repr

/-- JavaScript truthiness of an optional string field under the
\x7c\x7c operator: an absent field and the empty string are both falsy. -/
def jsFieldOr (a : Option String) (b : String) : String :=
  match a with
  | some s => if s = "" then b else s
  | none => b

/-- The error-message extraction chain shared verbatim by the catch
blocks of LLMChat.send and MultimodalRAG.send:
(typeof e === string && e) \x7c\x7c e?.error \x7c\x7c e?.details?.error
\x7c\x7c e?.details?.detail \x7c\x7c e?.message \x7c\x7c "Failed to send message".
A string payload that is empty is falsy and, having none of the probed
properties, falls through to the fixed fallback. -/
def extractSendError : ErrPayload → String
  | ErrPayload.str s => if s = "" then "Failed to send message" else s
  | ErrPayload.obj f =>
      jsFieldOr f.error
        (jsFieldOr (f.details.bind (fun d => d.error))
          (jsFieldOr (f.details.bind (fun d => d.detail))
            (jsFieldOr f.message "Failed to send message")))

/-- Resolution of a failed chat request, applied to the state current at
resolution time: store the extracted display error and leave pending
state (finally block).  The transcript is not touched. -/
def chatResolveFailure (s : ChatState) (e : ErrPayload) : ChatState :=
  { s with
    error := extractSendError e
    loading := false }

/-- LLMChat.clearChat: setMessages([]); setError(""). -/
def clearChat (s : ChatState) : ChatState :=
  { s with messages := [], error := "" }

/-- One entry of the GET /api/llm/models response, with an optional name
(Array of \x7b name?: string \x7d). -/
structure ModelDescriptor where
  name : Option String
deriving DecidableEq, Repr

/-- names in LLMChat.loadModels: models.map(m => m?.name).filter(Boolean)
— the name fields that are present and non-empty, in order. -/
def modelNames (models : List ModelDescriptor) : List String :=
  (models.map (fun d => d.name)).filterMap (fun o =>
    match o with
    | some n => if n = "" then none else some n
    | none => none)

/-- State change of a successful LLMChat.loadModels:
setAvailableModels(names); if (!model && names.length) setModel(names[0]). -/
def applyLoadModels (s : ChatState) (models : List ModelDescriptor) : ChatState :=
  let names := modelNames models
  { s with
    availableModels := names
    model := if s.model = "" && !names.isEmpty then names.headD "" else s.model }

/-- Role of a message in the MultimodalRAG component
(role: user | assistant). -/
inductive RagRole where
  | user
  | assistant
deriving DecidableEq, Repr

/-- Optional auxiliary context attached to an assistant message in
MultimodalRAG (context?: \x7b texts?: string[]; images?: string[] \x7d). -/
structure RagContext where
  texts : Option (List String)
  images : Option (List String)
deriving DecidableEq, Repr

/-- A transcript entry of the MultimodalRAG component. -/
structure RagMessage where
  id : String
  role : RagRole
  content : String
  context : Option RagContext
deriving DecidableEq, Repr

/-- Body of POST /api/llm/rag/query as built in MultimodalRAG.send:
only the question text. -/
structure RagRequest where
  question : String
deriving DecidableEq, Repr

/-- A file as seen by handleFileUpload; only its name is inspected. -/
structure FileRec where
  name : String
deriving DecidableEq, Repr

/-- Body of POST /api/llm/rag/process: a single-file multipart form. -/
structure UploadRequest where
  file : FileRec
deriving DecidableEq, Repr

/-- React state of the MultimodalRAG component: one field per useState
hook. -/
structure RagState where
  messages : List RagMessage
  draft : String
  loading : Bool
  uploading : Bool
  error : String
  uploadSuccess : String
  processedFiles : List String
deriving DecidableEq, Repr

/-- Guard at the top of MultimodalRAG.send, identical to the LLMChat
guard: return when the trimmed draft is empty or a chat request is
pending.  The uploading flag is not consulted. -/
def ragSendAccepts (r : RagState) : Bool :=
  !(jsTrim r.draft = "") && !r.loading

/-- Synchronous state change of an accepted MultimodalRAG.send. -/
def ragSendStart (r : RagState) (uid : String) : RagState :=
  { r with
    error := ""
    loading := true
    messages := r.messages ++
      [{ id := uid, role := RagRole.user, content := jsTrim r.draft, context := none }]
    draft := "" }

/-- The request body of an accepted MultimodalRAG.send: just the trimmed
draft as the question. -/
def ragRequest (r : RagState) : RagRequest :=
  { question := jsTrim r.draft }

/-- One invocation of MultimodalRAG.send. -/
def ragSendStep (r : RagState) (uid : String) : RagState × Option RagRequest :=
  if ragSendAccepts r then (ragSendStart r uid, some (ragRequest r))
  else (r, none)

/-- Answer stored in the MultimodalRAG success branch:
res?.data?.answer \x7c\x7c "(empty response)" — an absent or empty answer
is falsy and replaced by the placeholder. -/
def ragResponseAnswer (answer : Option String) : String :=
  match answer with
  | some a => if a = "" then "(empty response)" else a
  | none => "(empty response)"

/-- Resolution of a successful rag query, applied to the state current at
resolution time: append the assistant message carrying the answer and
the context object (res?.data?.context \x7c\x7c \x7b\x7d), leave pending
state. -/
def ragResolveSuccess (r : RagState) (uid : String) (answer : Option String)
    (context : Option RagContext) : RagState :=
  { r with
    messages := r.messages ++
      [{ id := uid, role := RagRole.assistant, content := ragResponseAnswer answer,
         context := some (context.getD { texts := none, images := none }) }]
    loading := false }

/-- Resolution of a failed rag query: same extraction chain as the chat
variant, leave pending state, transcript untouched. -/
def ragResolveFailure (r : RagState) (e : ErrPayload) : RagState :=
  { r with
    error := extractSendError e
    loading := false }

/-- MultimodalRAG.clearChat: setMessages([]); setError(""). -/
def ragClearChat (r : RagState) : RagState :=
  { r with messages := [], error := "" }

/-- One invocation of MultimodalRAG.handleFileUpload up to the issuing of
the network call: no file selected is a silent no-op; a first file whose
lower-cased name does not end in ".pdf" only sets the validation error;
otherwise the error and success banners are cleared, the uploading flag
is set, and one request carrying that single file is issued. -/
def handleFileUpload (r : RagState) (files : List FileRec) :
    RagState × Option UploadRequest :=
  match files with
  | [] => (r, none)
  | file :: _ =>
    if !(jsEndsWith (jsToLower file.name) ".pdf") then
      ({ r with error := "Please upload a PDF file" }, none)
    else
      ({ r with error := "", uploadSuccess := "", uploading := true }, some { file := file })

/-- The disabled prop of the MultimodalRAG footer Textarea:
disabled = loading \x7c\x7c uploading.  A disabled textarea receives no
key events, so the Enter-to-send path is unavailable while it holds. -/
def ragTextareaDisabled (r : RagState) : Bool :=
  r.loading || r.uploading

/-- The disabled prop of the MultimodalRAG footer Send LoadingButton:
disabled = uploading (LoadingButton additionally disables itself while
loading).  A disabled button fires no click, so the button path is
unavailable while it holds. -/
def ragSendButtonDisabled (r : RagState) : Bool :=
  r.uploading

/-- A user-initiated submission through the Send button: the click
reaches send() only when the button is not disabled. -/
def ragSubmitViaButton (r : RagState) (uid : String) : RagState × Option RagRequest :=
  if ragSendButtonDisabled r then (r, none) else ragSendStep r uid

/-- A user-initiated submission through Enter in the textarea: the key
event reaches send() only when the textarea is not disabled. -/
def ragSubmitViaEnter (r : RagState) (uid : String) : RagState × Option RagRequest :=
  if ragTextareaDisabled r then (r, none) else ragSendStep r uid

/-- The data carried by an HTTP error response, as probed by the axios
response interceptor; absent or null data is none. -/
structure AxiosResp where
  data : Option ErrPayload
deriving DecidableEq, Repr

/-- JavaScript truthiness of a rejected payload value: every object is
truthy; a string is truthy iff non-empty. -/
def payloadTruthy : ErrPayload → Bool
  | ErrPayload.str s => !(s = "")
  | ErrPayload.obj _ => true

/-- The axios response interceptor rejection value:
(error.response && error.response.data) \x7c\x7c "Something went wrong".
With no response, absent data, or falsy data the substitute string is
rejected instead. -/
def interceptReject (response : Option AxiosResp) : ErrPayload :=
  match response with
  | none => ErrPayload.str "Something went wrong"
  | some resp =>
    match resp.data with
    | none => ErrPayload.str "Something went wrong"
    | some d => if payloadTruthy d then d else ErrPayload.str "Something went wrong"

/-- Stated from the words of the spec, for comparison with chatRequest:
the outgoing conversation payload is the system instruction when its
trimmed value is non-empty, then the full prior transcript in order,
then the new user message. -/
def specOutgoingMessages (systemInstruction : String) (transcript : List ReqMessage)
    (newText : String) : List ReqMessage :=
  (if jsTrim systemInstruction = "" then []
   else [{ role := ChatRole.system, content := jsTrim systemInstruction }])
    ++ transcript ++ [{ role := ChatRole.user, content := newText }]

/-- First available candidate in a priority list: a candidate is
available when it is present and usable as a non-empty display string. -/
def firstAvailable : List (Option String) → String → String
  | [], fallback => fallback
  | none :: rest, fallback => firstAvailable rest fallback
  | some s :: rest, fallback =>
      if s = "" then firstAvailable rest fallback else s

/-- The payload itself, when it is a string. -/
def payloadAsString : ErrPayload → Option String
  | ErrPayload.str s => some s
  | ErrPayload.obj _ => none

/-- The error field of the payload, when the payload is an object. -/
def payloadErrorField : ErrPayload → Option String
  | ErrPayload.str _ => none
  | ErrPayload.obj f => f.error

/-- The nested details.error field of the payload. -/
def payloadDetailsErrorField : ErrPayload → Option String
  | ErrPayload.str _ => none
  | ErrPayload.obj f => f.details.bind (fun d => d.error)

/-- The nested details.detail field of the payload. -/
def payloadDetailsDetailField : ErrPayload → Option String
  | ErrPayload.str _ => none
  | ErrPayload.obj f => f.details.bind (fun d => d.detail)

/-- The message field of the payload, when the payload is an object. -/
def payloadMessageField : ErrPayload → Option String
  | ErrPayload.str _ => none
  | ErrPayload.obj f => f.message

/-- Stated from the words of the spec, for comparison with
extractSendError: the display error is the first available of the string
payload itself, the error field, the nested details.error and
details.detail fields, and the message field, with the fixed fallback
when none is available. -/
def specDisplayError (e : ErrPayload) : String :=
  firstAvailable
    [payloadAsString e, payloadErrorField e, payloadDetailsErrorField e,
     payloadDetailsDetailField e, payloadMessageField e]
    "Failed to send message"

theorem extractSendError_eq_spec (e : ErrPayload) :
    extractSendError e = specDisplayError e := by
  cases e with
  | str s =>
      by_cases h : s = "" <;>
        simp [extractSendError, specDisplayError, firstAvailable, payloadAsString,
          payloadErrorField, payloadDetailsErrorField, payloadDetailsDetailField,
          payloadMessageField, h]
  | obj f =>
      obtain ⟨fe, fd, fm⟩ := f
      cases fd with
      | none => cases fe <;> cases fm <;> rfl
      | some d =>
          obtain ⟨de, dd⟩ := d
          cases fe <;> cases de <;> cases dd <;> cases fm <;> rfl

theorem jsFieldOr_ne_empty (a : Option String) (b : String) (hb : ¬ b = "") :
    ¬ jsFieldOr a b = "" := by
  cases a with
  | none => exact hb
  | some s => by_cases h : s = "" <;> simp [jsFieldOr, h, hb]

theorem extractSendError_ne_empty (e : ErrPayload) : ¬ extractSendError e = "" := by
  cases e with
  | str s =>
      by_cases h : s = "" <;> simp [extractSendError, h]
  | obj f =>
      simp only [extractSendError]
      exact jsFieldOr_ne_empty _ _ (jsFieldOr_ne_empty _ _ (jsFieldOr_ne_empty _ _
        (jsFieldOr_ne_empty _ _ (by simp))))

/-- C4: clear() always yields an empty transcript and an empty stored
error, from any prior state, and performs no cancellation of an
in-flight request — the pending flag is left exactly as it was — in both
the chat and the multimodal components. -/
theorem clear_empties_transcript_and_error (s : ChatState) (r : RagState) :
    (clearChat s).messages = [] ∧ (clearChat s).error = ""
    ∧ (clearChat s).loading = s.loading
    ∧ (ragClearChat r).messages = [] ∧ (ragClearChat r).error = ""
    ∧ (ragClearChat r).loading = r.loading
    ∧ (ragClearChat r).uploading = r.uploading := by
  simp [clearChat, ragClearChat]

/-- C3: submit is a no-op (whole state unchanged, no request issued)
when the trimmed draft is empty or a request is pending, in both
components; and a first accepted submission issues its one request while
a second submission made while it is pending is dropped, so exactly one
network call occurs. -/
theorem submit_noop_when_empty_or_pending (s : ChatState) (r : RagState)
    (u1 u2 u3 u4 : String)
    (hs : jsTrim s.draft = "" ∨ s.loading = true)
    (hr : jsTrim r.draft = "" ∨ r.loading = true) :
    chatSendStep s u1 = (s, none) ∧ ragSendStep r u2 = (r, none)
    ∧ (∀ s2 : ChatState, chatSendAccepts s2 = true →
        (chatSendStep s2 u3).2 = some (chatRequest s2)
        ∧ chatSendStep (chatSendStep s2 u3).1 u4 = ((chatSendStep s2 u3).1, none))
    ∧ (∀ r2 : RagState, ragSendAccepts r2 = true →
        (ragSendStep r2 u3).2 = some (ragRequest r2)
        ∧ ragSendStep (ragSendStep r2 u3).1 u4 = ((ragSendStep r2 u3).1, none)) := by
  refine ⟨?_, ?_, ?_, ?_⟩
  · have hacc : chatSendAccepts s = false := by
      rcases hs with h | h <;> simp [chatSendAccepts, h]
    simp [chatSendStep, hacc]
  · have hacc : ragSendAccepts r = false := by
      rcases hr with h | h <;> simp [ragSendAccepts, h]
    simp [ragSendStep, hacc]
  · intro s2 h
    have h1 : chatSendStep s2 u3 = (chatSendStart s2 u3, some (chatRequest s2)) := by
      simp [chatSendStep, h]
    have h2 : chatSendAccepts (chatSendStart s2 u3) = false := by
      simp [chatSendAccepts, chatSendStart]
    refine ⟨by rw [h1], ?_⟩
    rw [h1]
    simp [chatSendStep, h2]
  · intro r2 h
    have h1 : ragSendStep r2 u3 = (ragSendStart r2 u3, some (ragRequest r2)) := by
      simp [ragSendStep, h]
    have h2 : ragSendAccepts (ragSendStart r2 u3) = false := by
      simp [ragSendAccepts, ragSendStart]
    refine ⟨by rw [h1], ?_⟩
    rw [h1]
    simp [ragSendStep, h2]

/-- A concrete chat state whose draft is whitespace only. -/
def chatStateBlankDraft : ChatState :=
  { availableModels := [], model := "", systemPrompt := "You are a helpful assistant.",
    messages := [], draft := "   ", loading := false, error := "" }

/-- A concrete multimodal state with a request already pending. -/
def ragStatePending : RagState :=
  { messages := [], draft := "hello", loading := true, uploading := false,
    error := "", uploadSuccess := "", processedFiles := [] }

/-- Witness for submit_noop_when_empty_or_pending at concrete states: a
whitespace-only draft in the chat component, a pending request in the
multimodal component. -/
theorem submit_noop_when_empty_or_pending_witness :
    chatSendStep chatStateBlankDraft "u1" = (chatStateBlankDraft, none)
    ∧ ragSendStep ragStatePending "u2" = (ragStatePending, none) := by
  have h := submit_noop_when_empty_or_pending chatStateBlankDraft ragStatePending
    "u1" "u2" "u3" "u4" (Or.inl (by decide)) (Or.inr rfl)
  exact ⟨h.1, h.2.1⟩

/-- C8: clearChat modifies only the transcript and the stored error —
pending flags, draft, model selection and system prompt keep their
values — and a successful response resolving after a clear is appended
to the emptied transcript, leaving a single assistant message with no
preceding user message, in both components. -/
theorem clear_frame_and_late_response (s : ChatState) (r : RagState)
    (uid uid2 : String) (c a : Option String) (ctx : Option RagContext) :
    (clearChat s).loading = s.loading ∧ (clearChat s).draft = s.draft
    ∧ (clearChat s).model = s.model ∧ (clearChat s).systemPrompt = s.systemPrompt
    ∧ (clearChat s).availableModels = s.availableModels
    ∧ (chatResolveSuccess (clearChat s) uid c).messages
        = [{ id := uid, role := ChatRole.assistant, content := chatResponseContent c }]
    ∧ (ragClearChat r).loading = r.loading ∧ (ragClearChat r).uploading = r.uploading
    ∧ (ragClearChat r).draft = r.draft
    ∧ (ragResolveSuccess (ragClearChat r) uid2 a ctx).messages
        = [{ id := uid2, role := RagRole.assistant, content := ragResponseAnswer a,
             context := some (ctx.getD { texts := none, images := none }) }] := by
  simp [clearChat, ragClearChat, chatResolveSuccess, ragResolveSuccess]

theorem chatResponseContent_ne_empty (c : Option String) :
    ¬ chatResponseContent c = "" := by
  cases c with
  | none => decide
  | some t => by_cases h : t = "" <;> simp [chatResponseContent, h]

theorem ragResponseAnswer_ne_empty (a : Option String) :
    ¬ ragResponseAnswer a = "" := by
  cases a with
  | none => decide
  | some t => by_cases h : t = "" <;> simp [ragResponseAnswer, h]

/-- C5: on a successful response whose content field (chat) or answer
field (multimodal) is absent or the empty string, the appended assistant
message content is the fixed placeholder "(empty response)"; when the
field is non-empty the appended content equals it; and no appended
message ever has empty content. -/
theorem empty_response_placeholder (s : ChatState) (r : RagState) (uid uid2 : String)
    (c a : Option String) (ctx : Option RagContext) :
    (c = none ∨ c = some "" →
      (chatResolveSuccess s uid c).messages.getLast?
        = some { id := uid, role := ChatRole.assistant, content := "(empty response)" })
    ∧ (∀ t, c = some t → ¬ t = "" →
      (chatResolveSuccess s uid c).messages.getLast?
        = some { id := uid, role := ChatRole.assistant, content := t })
    ∧ (∀ m, m ∈ (chatResolveSuccess s uid c).messages → m ∈ s.messages ∨ ¬ m.content = "")
    ∧ (a = none ∨ a = some "" →
      (ragResolveSuccess r uid2 a ctx).messages.getLast?
        = some { id := uid2, role := RagRole.assistant, content := "(empty response)",
                 context := some (ctx.getD { texts := none, images := none }) })
    ∧ (∀ t, a = some t → ¬ t = "" →
      (ragResolveSuccess r uid2 a ctx).messages.getLast?
        = some { id := uid2, role := RagRole.assistant, content := t,
                 context := some (ctx.getD { texts := none, images := none }) })
    ∧ (∀ m, m ∈ (ragResolveSuccess r uid2 a ctx).messages →
        m ∈ r.messages ∨ ¬ m.content = "") := by
  refine ⟨?_, ?_, ?_, ?_, ?_, ?_⟩
  · intro h
    have hc : chatResponseContent c = "(empty response)" := by
      rcases h with h | h <;> subst h <;> rfl
    simp [chatResolveSuccess, hc]
  · intro t ht hne
    subst ht
    have hc : chatResponseContent (some t) = t := by simp [chatResponseContent, hne]
    simp [chatResolveSuccess, hc]
  · intro m hm
    simp only [chatResolveSuccess, List.mem_append, List.mem_singleton] at hm
    rcases hm with hm | hm
    · exact Or.inl hm
    · subst hm
      exact Or.inr (chatResponseContent_ne_empty c)
  · intro h
    have ha : ragResponseAnswer a = "(empty response)" := by
      rcases h with h | h <;> subst h <;> rfl
    simp [ragResolveSuccess, ha]
  · intro t ht hne
    subst ht
    have ha : ragResponseAnswer (some t) = t := by simp [ragResponseAnswer, hne]
    simp [ragResolveSuccess, ha]
  · intro m hm
    simp only [ragResolveSuccess, List.mem_append, List.mem_singleton] at hm
    rcases hm with hm | hm
    · exact Or.inl hm
    · subst hm
      exact Or.inr (ragResponseAnswer_ne_empty a)

/-- Witness for empty_response_placeholder: an empty content string in
the chat component and an absent answer in the multimodal component both
yield the placeholder. -/
theorem empty_response_placeholder_witness :
    (chatResolveSuccess chatStateBlankDraft "a1" (some "")).messages.getLast?
      = some { id := "a1", role := ChatRole.assistant, content := "(empty response)" }
    ∧ (ragResolveSuccess ragStatePending "a2" none none).messages.getLast?
      = some { id := "a2", role := RagRole.assistant, content := "(empty response)",
               context := some { texts := none, images := none } } := by
  have h := empty_response_placeholder chatStateBlankDraft ragStatePending "a1" "a2"
    (some "") none none
  exact ⟨h.1 (Or.inr rfl), h.2.2.2.1 (Or.inl rfl)⟩

/-- A concrete multimodal state at rest. -/
def ragStateIdle : RagState :=
  { messages := [], draft := "", loading := false, uploading := false,
    error := "", uploadSuccess := "", processedFiles := [] }

/-- C6: handleFileUpload rejects a first file whose lower-cased name
does not end in ".pdf" locally — only the validation message is set, no
network call is issued, the uploading flag keeps its value — and accepts
a matching name, issuing exactly one request carrying that single
file. -/
theorem upload_pdf_suffix_gate (r : RagState) (file : FileRec) (rest : List FileRec) :
    (jsEndsWith (jsToLower file.name) ".pdf" = false →
      handleFileUpload r (file :: rest)
        = ({ r with error := "Please upload a PDF file" }, none))
    ∧ (jsEndsWith (jsToLower file.name) ".pdf" = true →
      handleFileUpload r (file :: rest)
        = ({ r with error := "", uploadSuccess := "", uploading := true },
           some { file := file })) := by
  constructor <;> intro h <;> simp [handleFileUpload, h]

/-- Witness for upload_pdf_suffix_gate: report.txt is rejected locally
with the uploading flag still idle; Report.PDF is accepted
case-insensitively and issues one call carrying it. -/
theorem upload_pdf_suffix_gate_witness :
    handleFileUpload ragStateIdle [{ name := "report.txt" }]
      = ({ ragStateIdle with error := "Please upload a PDF file" }, none)
    ∧ handleFileUpload ragStateIdle [{ name := "Report.PDF" }]
      = ({ ragStateIdle with error := "", uploadSuccess := "", uploading := true },
         some { file := { name := "Report.PDF" } }) :=
  ⟨(upload_pdf_suffix_gate ragStateIdle { name := "report.txt" } []).1 (by decide),
   (upload_pdf_suffix_gate ragStateIdle { name := "Report.PDF" } []).2 (by decide)⟩

/-- A concrete chat state with a two-message prior transcript and a
fresh draft. -/
def chatStateDraftHello : ChatState :=
  { availableModels := [], model := "", systemPrompt := "You are a helpful assistant.",
    messages := [{ id := "m1", role := ChatRole.user, content := "hi" },
                 { id := "m2", role := ChatRole.assistant, content := "hey" }],
    draft := "hello ", loading := false, error := "" }

/-- A concrete multimodal state with a two-message prior transcript and
a fresh draft. -/
def ragStateWithHistory : RagState :=
  { messages := [{ id := "m1", role := RagRole.user, content := "earlier question",
                   context := none },
                 { id := "m2", role := RagRole.assistant, content := "earlier answer",
                   context := none }],
    draft := "next question", loading := false, uploading := false,
    error := "", uploadSuccess := "", processedFiles := [] }

/-- The same multimodal state with its transcript emptied. -/
def ragStateNoHistory : RagState :=
  { ragStateWithHistory with messages := [] }

/-- C1 (amended): an accepted chat submission issues one request whose
message list is the system instruction when its trimmed value is
non-empty, then the full prior transcript in order, then the new user
message; an accepted multimodal RAG submission instead issues one
request whose body carries only the new question. -/
theorem chat_request_full_history_rag_question_only (s : ChatState) (r : RagState)
    (u1 u2 : String) (hs : chatSendAccepts s = true) (hr : ragSendAccepts r = true) :
    (chatSendStep s u1).2 = some (chatRequest s)
    ∧ (chatRequest s).messages
        = specOutgoingMessages s.systemPrompt
            (s.messages.map (fun m => { role := m.role, content := m.content }))
            (jsTrim s.draft)
    ∧ (ragSendStep r u2).2 = some { question := jsTrim r.draft } := by
  refine ⟨by simp [chatSendStep, hs], ?_, by simp [ragSendStep, hr, ragRequest]⟩
  simp [chatRequest, requestMessages, specOutgoingMessages, List.append_assoc]

/-- Witness for chat_request_full_history_rag_question_only at concrete
accepted states. -/
theorem chat_request_full_history_witness :
    chatSendAccepts chatStateDraftHello = true
    ∧ ragSendAccepts ragStateWithHistory = true
    ∧ (chatRequest chatStateDraftHello).messages
        = specOutgoingMessages chatStateDraftHello.systemPrompt
            (chatStateDraftHello.messages.map (fun m => { role := m.role, content := m.content }))
            (jsTrim chatStateDraftHello.draft)
    ∧ (ragSendStep ragStateWithHistory "u2").2 = some { question := jsTrim ragStateWithHistory.draft } := by
  have h := chat_request_full_history_rag_question_only chatStateDraftHello
    ragStateWithHistory "u1" "u2" (by decide) (by decide)
  exact ⟨by decide, by decide, h.2.1, h.2.2⟩

/-- C1 counterexample: in the multimodal RAG variant the outgoing
request does not carry the conversation history — a state with a
two-message prior transcript and the same state with an empty transcript
issue the very same accepted request, so the server cannot receive the
prior transcript there. -/
theorem rag_request_omits_history_cex :
    (ragSendStep ragStateWithHistory "u1").2 = some { question := "next question" }
    ∧ (ragSendStep ragStateNoHistory "u2").2 = some { question := "next question" }
    ∧ ¬ ragStateWithHistory.messages = ragStateNoHistory.messages := by
  refine ⟨?_, ?_, ?_⟩ <;> decide

/-- C2: a failed submission stores as display error the first available
candidate in the fixed priority order — the string payload itself, then
the error field, then the nested details.error, then details.detail,
then the message field, then the fixed fallback — the pending flag
returns to idle, and the transcript is not rolled back: it still ends
with the just-appended user message and gains no assistant message; in
both components. -/
theorem failed_send_error_priority_no_rollback (s : ChatState) (r : RagState)
    (u1 u2 : String) (e : ErrPayload)
    (hs : chatSendAccepts s = true) (hr : ragSendAccepts r = true) :
    (chatResolveFailure (chatSendStart s u1) e).error = specDisplayError e
    ∧ (chatResolveFailure (chatSendStart s u1) e).loading = false
    ∧ (chatResolveFailure (chatSendStart s u1) e).messages
        = s.messages ++ [{ id := u1, role := ChatRole.user, content := jsTrim s.draft }]
    ∧ (ragResolveFailure (ragSendStart r u2) e).error = specDisplayError e
    ∧ (ragResolveFailure (ragSendStart r u2) e).loading = false
    ∧ (ragResolveFailure (ragSendStart r u2) e).messages
        = r.messages ++ [{ id := u2, role := RagRole.user, content := jsTrim r.draft,
                           context := none }] := by
  simp [chatResolveFailure, ragResolveFailure, chatSendStart, ragSendStart,
    extractSendError_eq_spec]

/-- Witness for failed_send_error_priority_no_rollback: a rejected
object payload with an error field yields exactly that field as display
error while the user message stays appended. -/
theorem failed_send_error_priority_witness :
    chatSendAccepts chatStateDraftHello = true
    ∧ (chatResolveFailure (chatSendStart chatStateDraftHello "u1")
        (ErrPayload.obj { error := some "quota exceeded", details := none,
                          message := none })).error = "quota exceeded"
    ∧ (chatResolveFailure (chatSendStart chatStateDraftHello "u1")
        (ErrPayload.obj { error := some "quota exceeded", details := none,
                          message := none })).messages
        = chatStateDraftHello.messages
            ++ [{ id := "u1", role := ChatRole.user, content := "hello" }] := by
  have h := failed_send_error_priority_no_rollback chatStateDraftHello ragStateWithHistory
    "u1" "u2"
    (ErrPayload.obj { error := some "quota exceeded", details := none, message := none })
    (by decide) (by decide)
  refine ⟨by decide, h.1.trans (by decide), ?_⟩
  rw [h.2.2.1]
  decide

/-- A concrete multimodal state with an upload in flight, the chat flag
idle, and a non-empty trimmed draft. -/
def ragStateUploading : RagState :=
  { messages := [], draft := "hello", loading := false, uploading := true,
    error := "", uploadSuccess := "", processedFiles := [] }

/-- C7 (amended): the two operations keep two independent pending flags
— MultimodalRAG.send is gated only by the chat pending flag, so its
guard accepts during an in-flight upload and a direct invocation then
performs its request — but the footer textarea and the Send button are
disabled while the uploading flag is pending, so a user-initiated
submission during an upload is suppressed at the control level. -/
theorem rag_send_gating_during_upload (r : RagState) (uid : String)
    (hup : r.uploading = true) (hld : r.loading = false)
    (hdr : ¬ jsTrim r.draft = "") :
    ragSendAccepts r = true
    ∧ ragSendStep r uid = (ragSendStart r uid, some (ragRequest r))
    ∧ ragSubmitViaButton r uid = (r, none)
    ∧ ragSubmitViaEnter r uid = (r, none) := by
  have hacc : ragSendAccepts r = true := by simp [ragSendAccepts, hdr, hld]
  refine ⟨hacc, by simp [ragSendStep, hacc], ?_, ?_⟩
  · simp [ragSubmitViaButton, ragSendButtonDisabled, hup]
  · simp [ragSubmitViaEnter, ragTextareaDisabled, hup]

/-- Witness for rag_send_gating_during_upload at the concrete uploading
state. -/
theorem rag_send_gating_during_upload_witness :
    ragStateUploading.uploading = true ∧ ragStateUploading.loading = false
    ∧ ¬ jsTrim ragStateUploading.draft = ""
    ∧ ragSendAccepts ragStateUploading = true
    ∧ ragSubmitViaButton ragStateUploading "u1" = (ragStateUploading, none) := by
  have h := rag_send_gating_during_upload ragStateUploading "u1" rfl rfl (by decide)
  exact ⟨rfl, rfl, by decide, h.1, h.2.2.1⟩

/-- C7 counterexample: with an upload in flight (uploading flag pending,
chat flag idle) and a non-empty trimmed draft, neither the Send button
path nor the Enter-to-send path performs the submission — both controls
are disabled while uploading — so no request is issued even though the
send guard itself would accept the text. -/
theorem rag_submission_blocked_during_upload_cex :
    ragStateUploading.uploading = true ∧ ragStateUploading.loading = false
    ∧ ragSendAccepts ragStateUploading = true
    ∧ ragSubmitViaButton ragStateUploading "u1" = (ragStateUploading, none)
    ∧ ragSubmitViaEnter ragStateUploading "u2" = (ragStateUploading, none) := by
  refine ⟨rfl, rfl, ?_, ?_, ?_⟩ <;> decide

/-- C9: a failure whose HTTP response is missing, carries no data, or
carries falsy (empty-string) data reaches the component as the
interceptor substitute "Something went wrong", and that exact string is
stored as the display error; moreover the stored display error after
any failure is never the empty string. -/
theorem interceptor_substitute_nonempty_error (s : ChatState)
    (response : Option AxiosResp) (e : ErrPayload)
    (h : response = none ∨ response = some { data := none }
        ∨ response = some { data := some (ErrPayload.str "") }) :
    interceptReject response = ErrPayload.str "Something went wrong"
    ∧ (chatResolveFailure s (interceptReject response)).error = "Something went wrong"
    ∧ ¬ (chatResolveFailure s e).error = "" := by
  have h1 : interceptReject response = ErrPayload.str "Something went wrong" := by
    rcases h with h | h | h <;> subst h <;> rfl
  refine ⟨h1, ?_, ?_⟩
  · rw [h1]
    rfl
  · simpa [chatResolveFailure] using extractSendError_ne_empty e

/-- Witness for interceptor_substitute_nonempty_error: a failure with no
HTTP response at all stores the substitute string. -/
theorem interceptor_substitute_nonempty_error_witness :
    interceptReject none = ErrPayload.str "Something went wrong"
    ∧ (chatResolveFailure chatStateDraftHello (interceptReject none)).error
        = "Something went wrong" := by
  have h := interceptor_substitute_nonempty_error chatStateDraftHello none
    (ErrPayload.str "x") (Or.inl rfl)
  exact ⟨h.1, h.2.1⟩

theorem mem_modelNames (models : List ModelDescriptor) (n : String) :
    n ∈ modelNames models ↔ (some n ∈ models.map (fun d => d.name) ∧ ¬ n = "") := by
  simp only [modelNames, List.mem_filterMap]
  constructor
  · rintro ⟨o, ho, hfo⟩
    cases o with
    | none => simp at hfo
    | some m =>
        by_cases hm : m = ""
        · simp [hm] at hfo
        · simp only [if_neg hm, Option.some.injEq] at hfo
          subst hfo
          exact ⟨ho, hm⟩
  · rintro ⟨hmem, hne⟩
    exact ⟨some n, hmem, by simp [hne]⟩

/-- C10: a successful model fetch keeps exactly the descriptor names
that are present and non-empty; when no model is selected and the
resulting name list is non-empty, the first fetched name becomes the
selected model, and a chat request built afterwards carries that name
rather than omitting the model field. -/
theorem load_models_keeps_truthy_selects_first (s : ChatState)
    (models : List ModelDescriptor) :
    (∀ n : String, n ∈ (applyLoadModels s models).availableModels
        ↔ (some n ∈ models.map (fun d => d.name) ∧ ¬ n = ""))
    ∧ (s.model = "" → ¬ modelNames models = [] →
        (applyLoadModels s models).model = (modelNames models).headD ""
        ∧ (chatRequest (applyLoadModels s models)).model
            = some ((modelNames models).headD "")) := by
  have hav : (applyLoadModels s models).availableModels = modelNames models := by
    simp [applyLoadModels]
  refine ⟨fun n => by rw [hav]; exact mem_modelNames models n, ?_⟩
  intro hm hne
  have hmod : (applyLoadModels s models).model = (modelNames models).headD "" := by
    simp [applyLoadModels, hm, hne]
  refine ⟨hmod, ?_⟩
  have hhead : (modelNames models).headD "" ∈ modelNames models := by
    cases hx : modelNames models with
    | nil => exact absurd hx hne
    | cons x xs => simp [hx]
  have hne2 : ¬ (modelNames models).headD "" = "" :=
    ((mem_modelNames models _).1 hhead).2
  have hreq : (chatRequest (applyLoadModels s models)).model
      = if (applyLoadModels s models).model = "" then none
        else some (applyLoadModels s models).model := rfl
  rw [hreq, hmod, if_neg hne2]

/-- A concrete model-list response mixing kept and dropped
descriptors. -/
def modelsFetched : List ModelDescriptor :=
  [{ name := some "llama3" }, { name := none }, { name := some "" },
   { name := some "qwen" }]

/-- Witness for load_models_keeps_truthy_selects_first: from a state
with no selected model, the fetch keeps the two truthy names, selects
llama3, and a subsequent request carries it. -/
theorem load_models_selects_first_witness :
    chatStateDraftHello.model = ""
    ∧ ¬ modelNames modelsFetched = []
    ∧ (applyLoadModels chatStateDraftHello modelsFetched).model = "llama3"
    ∧ (chatRequest (applyLoadModels chatStateDraftHello modelsFetched)).model
        = some "llama3" := by
  have h := (load_models_keeps_truthy_selects_first chatStateDraftHello modelsFetched).2
    rfl (by decide)
  exact ⟨rfl, by decide, h.1.trans (by decide), h.2.trans (by decide)⟩
